import Mathlib

/-!
Verification development for the image_sl repository: a dynamic-library
plugin ABI for image manipulation.  The provider (src/src/lib.rs) exposes a
size-prefixed function table over an opaque image handle; the consumer
(src/examples/use_lib/img/{mod,bindings}.rs) loads the table, validates the
size prefix and wraps handles in a scoped Image type.

Shallow embedding conventions:
- Machine pointers to provider heap images are addresses in a `Heap` with a
  bump allocator counter; a null pointer is `Option.none`.
- The external image crate (decode, encode, the Gaussian blur kernel, the
  UTF-8 check of str::from_utf8) is a black-box collaborator and is passed
  in as an explicit `Engine` record; the one external routine whose pointwise
  behaviour a repository property depends on, flip_horizontal_in_place, is
  modelled concretely as per-row reversal.
- A Rust panic or undefined behaviour (unwrap of a null pointer,
  Box::from_raw on null, a dangling dereference) is an aborted execution,
  modelled as `Option.none` in the result of the operation.
- f32 values (the blur sigma) are carried as their 32-bit pattern; the
  repository never inspects sigma, it only forwards it to the engine.
-/

/-- One pixel value of an image buffer, abstracted to a number. -/
abbrev Pixel := Nat

/-- Model of an f32 value by its 32-bit pattern.  The repository code never
inspects sigma; it only forwards it across the ABI to the engine. -/
abbrev F32 := Nat

/-- Colour formats a DynamicImage can be stored in (a representative subset;
the repository only ever names Rgba8 explicitly, in img_blur). -/
inductive ColorFormat where
  | rgba8
  | rgb8
  | luma8
  | lumaA8
  deriving DecidableEq

/-- Model of image::DynamicImage: a colour format together with the pixel
grid, row by row. -/
structure Img where
  fmt : ColorFormat
  rows : List (List Pixel)
  deriving DecidableEq

/-- Models image::imageops::flip_horizontal_in_place of the external image
crate: a horizontal flip reverses every pixel row, keeping the format. -/
def flipHorizontal (i : Img) : Img :=
  { i with rows := i.rows.map List.reverse }

/-- Model of a provider image handle (a machine pointer to a heap
DynamicImage): `none` is the null pointer, `some a` the address `a`. -/
abbrev ImageHandle := Option Nat

/-- Model of RawPath: a pointer to a null-terminated UTF-8 byte sequence.
`none` is a null pointer; `some bs` holds the bytes before the terminator,
so by construction they contain no interior NUL. -/
abbrev RawPath := Option (List Nat)

/-- The provider's heap of DynamicImage allocations: a bump-allocation
counter `next` and the store `mem`.  Every address ever handed out is below
`next`, so `next` is fresh. -/
structure Heap where
  next : Nat
  mem : Nat → Option Img

/-- Error type of the external image crate (image::ImageError): the five
variants the repository matches on, plus one further variant standing for
any other (the crate's catch-all arm). -/
inductive EngineError where
  | decoding
  | encoding
  | unsupported
  | parameter
  | ioError
  | limits
  deriving DecidableEq

/-- The external image engine, a black-box collaborator: UTF-8 validation of
the path bytes (str::from_utf8), file decode (image::open), file encode
(DynamicImage::save) and the Gaussian blur kernel (image::imageops::blur,
which always produces an RGBA8 buffer). -/
structure Engine where
  validUtf8 : List Nat → Bool
  decode : List Nat → Except EngineError Img
  encode : List Nat → Img → Except EngineError Unit
  blurKernel : Img → F32 → List (List Pixel)

namespace Provider

/-- Error codes of the wire (src/src/lib.rs, enum ImageError, repr(C)):
NoError = 0 and the rest follow in declaration order. -/
inductive ImageError where
  | NoError
  | Io
  | Decoding
  | Encoding
  | Parameter
  | Unsupported
  deriving DecidableEq

/-- The repr(C) discriminant of the provider's ImageError: a 32-bit tag,
NoError = 0, then declaration order. -/
def ImageError.discriminant : ImageError → Nat
  | .NoError => 0
  | .Io => 1
  | .Decoding => 2
  | .Encoding => 3
  | .Parameter => 4
  | .Unsupported => 5

/-- Models impl From of image::ImageError for ImageError
(src/src/lib.rs lines 48-59), including the catch-all arm mapping any other
engine error to Unsupported. -/
def imageErrorFrom : EngineError → ImageError
  | .decoding => .Decoding
  | .encoding => .Encoding
  | .unsupported => .Unsupported
  | .parameter => .Parameter
  | .ioError => .Io
  | .limits => .Unsupported

/-- Models ImageHandle::as_image (src/src/lib.rs lines 13-16): reinterpret
the pointer and unwrap.  On a null handle the unwrap panics, and on a
dangling address the dereference is undefined; both abort, giving `none`. -/
def asImage (st : Heap) (h : ImageHandle) : Option Img :=
  match h with
  | none => none
  | some a => st.mem a

/-- Models ImageHandle::into_image (src/src/lib.rs lines 20-23):
Box::from_raw on the pointer, returning the boxed image and removing it from
the heap.  On a null or dangling pointer this is undefined behaviour,
modelled as an aborted execution (`none`). -/
def intoImage (st : Heap) (h : ImageHandle) : Option (Img × Heap) :=
  match h with
  | none => none
  | some a =>
      (st.mem a).map fun i =>
        (i, { next := st.next, mem := fun b => if b = a then none else st.mem b })

/-- Models ImageHandle::from_image (src/src/lib.rs lines 25-29): Box::leak a
new heap allocation holding the image and return its address. -/
def ImageHandle.fromImage (st : Heap) (i : Img) : ImageHandle × Heap :=
  (some st.next,
   { next := st.next + 1, mem := fun b => if b = st.next then some i else st.mem b })

/-- Models the TryFrom of RawPath into a Path (src/src/lib.rs lines
171-188): null pointer gives Parameter, invalid UTF-8 gives Parameter,
otherwise the UTF-8 bytes of the path. -/
def tryIntoPath (E : Engine) (p : RawPath) : Except ImageError (List Nat) :=
  match p with
  | none => .error .Parameter
  | some bs => if E.validUtf8 bs then .ok bs else .error .Parameter

/-- Models img_open (src/src/lib.rs lines 111-128).  The second component of
the result is the value written through the out pointer (`none` when the
function returned without writing); `outNull` says whether the out pointer
itself is null.  The null checks come first: null out pointer or null path
give Parameter without writing and without touching the heap. -/
def imgOpen (E : Engine) (st : Heap) (p : RawPath) (outNull : Bool) :
    ImageError × Option ImageHandle × Heap :=
  if outNull || p.isNone then (.Parameter, none, st)
  else
    match tryIntoPath E p with
    | .error e => (e, none, st)
    | .ok bs =>
        match E.decode bs with
        | .error e => (imageErrorFrom e, none, st)
        | .ok i =>
            let r := ImageHandle.fromImage st i
            (.NoError, some r.1, r.2)

/-- Models img_save (src/src/lib.rs lines 133-148): null handle or null path
give Parameter; then the path conversion, the handle dereference (as_image)
and the engine encode.  A dangling handle aborts (`none`). -/
def imgSave (E : Engine) (st : Heap) (p : RawPath) (h : ImageHandle) :
    Option (ImageError × Heap) :=
  if h.isNone || p.isNone then some (.Parameter, st)
  else
    match tryIntoPath E p with
    | .error e => some (e, st)
    | .ok bs =>
        match asImage st h with
        | none => none
        | some i =>
            match E.encode bs i with
            | .ok _ => some (.NoError, st)
            | .error e => some (imageErrorFrom e, st)

/-- Models img_destroy (src/src/lib.rs lines 151-153): it calls into_image
unconditionally, with no null check; the box is dropped.  On a null handle
Box::from_raw(null) is undefined behaviour, so the execution aborts. -/
def imgDestroy (st : Heap) (h : ImageHandle) : Option Heap :=
  (intoImage st h).map fun r => r.2

/-- Models img_blur (src/src/lib.rs lines 156-161): as_image on the handle
(no null check first, so a null handle panics inside the unwrap), then the
engine blur kernel, the result wrapped as DynamicImage::ImageRgba8, and a
fresh heap allocation for it via from_image. -/
def imgBlur (E : Engine) (st : Heap) (h : ImageHandle) (sigma : F32) :
    Option (ImageHandle × Heap) :=
  match asImage st h with
  | none => none
  | some i =>
      some (ImageHandle.fromImage st { fmt := .rgba8, rows := E.blurKernel i sigma })

/-- Models img_mirror (src/src/lib.rs lines 164-167): as_image on the handle
(no null check, a null handle panics inside the unwrap), then
flip_horizontal_in_place on the referenced image, updating it in place. -/
def imgMirror (st : Heap) (h : ImageHandle) : Option Heap :=
  match h with
  | none => none
  | some a =>
      (st.mem a).map fun i =>
        { next := st.next, mem := fun b => if b = a then some (flipHorizontal i) else st.mem b }

/-- Byte size of the provider's FunctionsBlock (src/src/lib.rs lines 78-85)
for a given pointer width: a repr(C) struct of one usize followed by five
function pointers, all pointer-sized and naturally aligned, so no padding
and six pointer-sized words in total. -/
def sizeOfFunctionsBlock (ptrBytes : Nat) : Nat := 6 * ptrBytes

/-- Model of the FunctionsBlock struct (src/src/lib.rs lines 78-85): the
size prefix followed by the five operation slots.  The consumer's Functions
mirror (src/examples/use_lib/img/bindings.rs lines 84-91) has the identical
field list and layout, so the same model type stands for both. -/
structure FunctionsBlock where
  size : Nat
  open_image : Heap → RawPath → Bool → ImageError × Option ImageHandle × Heap
  save_image : Heap → RawPath → ImageHandle → Option (ImageError × Heap)
  destroy_image : Heap → ImageHandle → Option Heap
  blur_image : Heap → ImageHandle → F32 → Option (ImageHandle × Heap)
  mirror_image : Heap → ImageHandle → Option Heap

/-- Models impl Default for FunctionsBlock (src/src/lib.rs lines 87-98):
size is set to the byte size of the struct itself, and every slot is bound
to the corresponding exported routine. -/
def FunctionsBlock.default (E : Engine) (ptrBytes : Nat) : FunctionsBlock where
  size := sizeOfFunctionsBlock ptrBytes
  open_image := fun st p outNull => imgOpen E st p outNull
  save_image := fun st p h => imgSave E st p h
  destroy_image := fun st h => imgDestroy st h
  blur_image := fun st h sigma => imgBlur E st h sigma
  mirror_image := fun st h => imgMirror st h

/-- Models the exported symbol functions (src/src/lib.rs lines 101-104):
returns FunctionsBlock::default() by value. -/
def functions (E : Engine) (ptrBytes : Nat) : FunctionsBlock :=
  FunctionsBlock.default E ptrBytes

end Provider

namespace Consumer

/-- Error codes of the consumer's bindings
(src/examples/use_lib/img/bindings.rs lines 39-46, repr(u32)): NoError = 0
and the rest follow in declaration order. -/
inductive ImageError where
  | NoError
  | Io
  | Decoding
  | Encoding
  | Parameter
  | Unsupported
  deriving DecidableEq

/-- The repr(u32) discriminant of the consumer's ImageError: a 32-bit tag,
NoError = 0, then declaration order. -/
def ImageError.discriminant : ImageError → Nat
  | .NoError => 0
  | .Io => 1
  | .Decoding => 2
  | .Encoding => 3
  | .Parameter => 4
  | .Unsupported => 5

/-- The consumer reads the 32-bit error value the provider produced as its
own ImageError: the same-named constructor, since both sides fix the same
discriminants. -/
def reinterpret : Provider.ImageError → ImageError
  | .NoError => .NoError
  | .Io => .Io
  | .Decoding => .Decoding
  | .Encoding => .Encoding
  | .Parameter => .Parameter
  | .Unsupported => .Unsupported

/-- Byte size of the consumer's compiled Functions struct
(src/examples/use_lib/img/bindings.rs lines 84-91) for a given pointer
width: repr(C), one usize and five function pointers, naturally aligned,
hence six pointer-sized words. -/
def sizeOfFunctions (ptrBytes : Nat) : Nat := 6 * ptrBytes

/-- Typed failures of the consumer wrapper that do not come back over the
ABI (all surfaced as anyhow::Error in the source). -/
inductive LoadError where
  | sizeMismatch
  deriving DecidableEq

/-- The ABI function-pointer slots a consumer operation can invoke; traces
of these record which provider calls an operation made. -/
inductive AbiCall where
  | openC
  | saveC
  | destroyC
  | blurC
  | mirrorC
  deriving DecidableEq

/-- Models struct Lib (src/examples/use_lib/img/mod.rs lines 88-92): the
consumer-owned copy of the function table.  The Arc of the library mapping
carries no data relevant to the embedded behaviour. -/
structure Lib where
  functions : Provider.FunctionsBlock

/-- Models Lib::new (src/examples/use_lib/img/mod.rs lines 96-110): after
resolving and invoking the exported symbol, the table copy's size field is
compared with the byte size of the consumer's compiled Functions struct;
inequality is a size-mismatch load error.  The second component is the
trace of table function pointers invoked, which is empty on every path. -/
def Lib.new (ptrBytes : Nat) (t : Provider.FunctionsBlock) :
    Except LoadError Lib × List AbiCall :=
  if t.size ≠ sizeOfFunctions ptrBytes then (.error .sizeMismatch, [])
  else (.ok { functions := t }, [])

/-- Models Lib::open_image (src/examples/use_lib/img/mod.rs lines 113-121):
a handle variable starts null, the table's open_image is called with a
non-null path and the address of that variable, and NoError yields the
handle as written (still null if the provider did not write). -/
def Lib.openImage (l : Lib) (st : Heap) (cs : List Nat) :
    Except ImageError ImageHandle × Heap :=
  match l.functions.open_image st (some cs) false with
  | (e, written, st1) =>
      match e with
      | .NoError => (.ok (written.getD none), st1)
      | e => (.error (reinterpret e), st1)

/-- Models Lib::save_image (src/examples/use_lib/img/mod.rs lines 124-132):
forward to the table's save_image and turn any non-NoError code into an
error.  An aborted provider call aborts the consumer too. -/
def Lib.saveImage (l : Lib) (st : Heap) (h : ImageHandle) (cs : List Nat) :
    Option (Except ImageError Unit × Heap) :=
  (l.functions.save_image st (some cs) h).map fun r =>
    match r.1 with
    | .NoError => (.ok (), r.2)
    | e => (.error (reinterpret e), r.2)

/-- Models Lib::destroy_image (src/examples/use_lib/img/mod.rs lines
135-137): a direct forward to the table slot. -/
def Lib.destroyImage (l : Lib) (st : Heap) (h : ImageHandle) : Option Heap :=
  l.functions.destroy_image st h

/-- Models Lib::blur_image (src/examples/use_lib/img/mod.rs lines 140-142):
a direct forward to the table slot. -/
def Lib.blurImage (l : Lib) (st : Heap) (h : ImageHandle) (sigma : F32) :
    Option (ImageHandle × Heap) :=
  l.functions.blur_image st h sigma

/-- Models Lib::mirror_image (src/examples/use_lib/img/mod.rs lines
145-147): a direct forward to the table slot. -/
def Lib.mirrorImage (l : Lib) (st : Heap) (h : ImageHandle) : Option Heap :=
  l.functions.mirror_image st h

/-- A consumer-side path argument (AsRef of Path): `some bs` when
Path::to_str succeeds, holding the UTF-8 bytes; `none` for a non-UTF-8
path. -/
abbrev PathArg := Option (List Nat)

/-- Failures the safe wrapper can report: the two path-marshalling failures
of path_to_cstring, and an ABI error code surfaced verbatim. -/
inductive WrapError where
  | notUtf8
  | interiorNul
  | abi (e : ImageError)

/-- Models path_to_cstring (src/examples/use_lib/img/mod.rs lines 77-85):
Path::to_str rejects non-UTF-8 paths, then CString::new rejects byte
sequences holding an interior NUL. -/
def pathToCstring (p : PathArg) : Except WrapError (List Nat) :=
  match p with
  | none => .error .notUtf8
  | some bs => if bs.contains 0 then .error .interiorNul else .ok bs

/-- Models struct Image (src/examples/use_lib/img/mod.rs lines 34-37): a
handle together with a clone of the Lib it came from. -/
structure Image where
  lib : Lib
  handle : ImageHandle

/-- Models Image::open (src/examples/use_lib/img/mod.rs lines 41-45): path
marshalling first — its failure returns before any ABI call — then
Lib::open_image.  The trace lists the ABI slots invoked. -/
def Image.openImage (l : Lib) (st : Heap) (p : PathArg) :
    Except WrapError (Image × Heap) × List AbiCall :=
  match pathToCstring p with
  | .error e => (.error e, [])
  | .ok cs =>
      match l.openImage st cs with
      | (.ok h, st1) => (.ok ({ lib := l, handle := h }, st1), [.openC])
      | (.error e, _) => (.error (.abi e), [.openC])

/-- Models Image::save (src/examples/use_lib/img/mod.rs lines 48-51): path
marshalling first — its failure returns before any ABI call — then
Lib::save_image.  The trace lists the ABI slots invoked; an aborted
provider call aborts the wrapper too. -/
def Image.save (st : Heap) (img : Image) (p : PathArg) :
    Option (Except WrapError Heap × List AbiCall) :=
  match pathToCstring p with
  | .error e => some (.error e, [])
  | .ok cs =>
      (img.lib.saveImage st img.handle cs).map fun r =>
        match r.1 with
        | .ok _ => (.ok r.2, [.saveC])
        | .error e => (.error (.abi e), [.saveC])

/-- Models Image::blur (src/examples/use_lib/img/mod.rs lines 54-60): call
the table's blur_image and wrap whatever handle comes back — null included —
in a new Image sharing the same Lib.  There is no error channel. -/
def Image.blur (st : Heap) (img : Image) (sigma : F32) : Option (Image × Heap) :=
  (img.lib.blurImage st img.handle sigma).map fun r =>
    ({ lib := img.lib, handle := r.1 }, r.2)

/-- Models Image::mirror (src/examples/use_lib/img/mod.rs lines 63-65): an
in-place forward to the table's mirror_image. -/
def Image.mirror (st : Heap) (img : Image) : Option Heap :=
  img.lib.mirrorImage st img.handle

end Consumer

/-! Concrete objects used by witnesses and counterexamples. -/

/-- A concrete two-by-two RGB8 image. -/
def img0 : Img := { fmt := .rgb8, rows := [[1, 2], [3, 4]] }

/-- A concrete heap holding img0 at address 0, next free address 1. -/
def heap0 : Heap :=
  { next := 1, mem := fun a => if a = 0 then some img0 else none }

/-- A concrete engine instance: accepts every byte sequence as UTF-8,
decodes everything to img0, encodes without error, and blurs to the input
rows unchanged. -/
def engine0 : Engine where
  validUtf8 := fun _ => true
  decode := fun _ => .ok img0
  encode := fun _ _ => .ok ()
  blurKernel := fun i _ => i.rows

/-- A provider table otherwise equal to the default one built over engine0
at pointer width 8, whose blur_image slot returns a null handle: the
concrete scenario of a provider answering blur with null. -/
def tNullBlur : Provider.FunctionsBlock :=
  { Provider.FunctionsBlock.default engine0 8 with
    blur_image := fun st _ _ => some (none, st) }


/-! Theorems settling the claims. -/

/-- C1.  For every loaded provider table, Lib::new succeeds exactly when the
table's size field equals the byte size of the consumer's compiled Functions
struct; on inequality it returns the size-mismatch load error with an empty
trace of invoked table function pointers.  The provider's table constructor
always sets size to the byte size of the FunctionsBlock it built, which has
the same six-pointer layout as the consumer's Functions, so loading the
provider's own table succeeds. -/
theorem size_handshake_exact (E : Engine) (ptrBytes : Nat)
    (t : Provider.FunctionsBlock) :
    ((Consumer.Lib.new ptrBytes t).1 = .ok { functions := t } ↔
      t.size = Consumer.sizeOfFunctions ptrBytes)
    ∧ (t.size ≠ Consumer.sizeOfFunctions ptrBytes →
        Consumer.Lib.new ptrBytes t = (.error .sizeMismatch, []))
    ∧ (Provider.functions E ptrBytes).size = Provider.sizeOfFunctionsBlock ptrBytes
    ∧ Provider.sizeOfFunctionsBlock ptrBytes = Consumer.sizeOfFunctions ptrBytes
    ∧ (Consumer.Lib.new ptrBytes (Provider.functions E ptrBytes)).1 =
        .ok { functions := Provider.functions E ptrBytes } := by
  refine ⟨?_, ?_, rfl, rfl, ?_⟩
  · by_cases hc : t.size = Consumer.sizeOfFunctions ptrBytes
    · simp [Consumer.Lib.new, hc]
    · simp [Consumer.Lib.new, hc]
  · intro hne
    simp [Consumer.Lib.new, hne]
  · simp [Consumer.Lib.new, Provider.functions, Provider.FunctionsBlock.default,
      Provider.sizeOfFunctionsBlock, Consumer.sizeOfFunctions]

/-- C2 counterexample.  The claim says every provider-exported function
checks its pointer arguments for null and none panics on a null argument;
but img_blur and img_mirror reach as_image with the null handle unchecked,
and its unwrap panics there (an aborted execution, `none` in the model). -/
theorem null_check_cex :
    Provider.imgBlur engine0 heap0 none 0 = none ∧
    Provider.imgMirror heap0 none = none := by
  exact ⟨rfl, rfl⟩

/-- C2 amended.  img_open and img_save check their pointer arguments for
null before using them and return Parameter; img_destroy, img_blur and
img_mirror perform no null check: img_blur and img_mirror panic on a null
handle (the unwrap inside as_image), and img_destroy hands the null pointer
to Box::from_raw, which is undefined behaviour — all three abort. -/
theorem null_check_amended (E : Engine) (st : Heap) (p : RawPath)
    (a : Nat) (sigma : F32) :
    Provider.imgOpen E st none false = (.Parameter, none, st)
    ∧ Provider.imgOpen E st p true = (.Parameter, none, st)
    ∧ Provider.imgSave E st p none = some (.Parameter, st)
    ∧ Provider.imgSave E st none (some a) = some (.Parameter, st)
    ∧ Provider.imgBlur E st none sigma = none
    ∧ Provider.imgMirror st none = none
    ∧ Provider.imgDestroy st none = none := by
  exact ⟨rfl, rfl, rfl, rfl, rfl, rfl, rfl⟩

/-- C3 counterexample.  The claim says destroy_image on a null handle is a
no-op that changes no state and does not crash — in the model, that the call
would return normally with the heap unchanged.  Instead img_destroy passes
the null handle straight to into_image, whose Box::from_raw(null) is
undefined behaviour: the execution aborts and no heap comes back. -/
theorem destroy_null_cex : (Provider.imgDestroy heap0 none).isSome = false := by
  exact rfl

/-- C3 amended.  img_destroy performs no null check: a null handle reaches
Box::from_raw (undefined behaviour, an aborted execution in the model)
rather than being a guaranteed no-op; a live handle frees exactly the image
it designates and leaves every other address unchanged. -/
theorem destroy_null_amended (st : Heap) :
    Provider.imgDestroy st none = none
    ∧ ∀ a i, st.mem a = some i →
        ∃ st1, Provider.imgDestroy st (some a) = some st1
          ∧ st1.mem a = none
          ∧ (∀ b, b ≠ a → st1.mem b = st.mem b)
          ∧ st1.next = st.next := by
  refine ⟨rfl, fun a i hmem => ?_⟩
  refine ⟨{ next := st.next, mem := fun b => if b = a then none else st.mem b },
    by simp [Provider.imgDestroy, Provider.intoImage, hmem], by simp, ?_, rfl⟩
  intro b hb
  simp [hb]

/-- C5.  Every call to img_open with a null path pointer or a null
out-handle pointer returns Parameter, writes nothing through the out
pointer, and leaves the heap untouched. -/
theorem open_null_parameter (E : Engine) (st : Heap) (p : RawPath)
    (outNull : Bool) (h : p = none ∨ outNull = true) :
    Provider.imgOpen E st p outNull = (.Parameter, none, st) := by
  rcases h with h | h
  · subst h
    cases outNull <;> rfl
  · subst h
    rfl

/-- C5 witness: the null-path call at a concrete engine and heap. -/
theorem open_null_parameter_witness :
    ((none : RawPath) = none ∨ false = true) ∧
    Provider.imgOpen engine0 heap0 none false = (.Parameter, none, heap0) :=
  ⟨Or.inl rfl, open_null_parameter engine0 heap0 none false (Or.inl rfl)⟩

/-- C4 counterexample.  The claim says a null handle returned from the
provider's blur_image is reported by Image::blur as an Unsupported error;
instead, with a concrete live image and a concrete in-spec table whose
blur_image slot answers null, Image::blur returns an Image that owns the
null handle — no error of any kind is produced (its signature has no error
channel at all). -/
theorem blur_wrapper_cex :
    Consumer.Image.blur heap0
        { lib := { functions := tNullBlur }, handle := some 0 } 40 =
      some ({ lib := { functions := tNullBlur }, handle := none }, heap0) := by
  exact rfl

/-- C4 amended.  Image::blur forwards to the table's blur_image and wraps
whatever handle comes back — null included — into a new Image sharing the
same Lib; it has no error channel and performs no null check. -/
theorem blur_wrapper_amended (st : Heap) (img : Consumer.Image)
    (sigma : F32) (h : ImageHandle) (st1 : Heap)
    (hcall : img.lib.functions.blur_image st img.handle sigma = some (h, st1)) :
    Consumer.Image.blur st img sigma = some ({ lib := img.lib, handle := h }, st1) := by
  simp [Consumer.Image.blur, Consumer.Lib.blurImage, hcall]

/-- C4 witness: the amended statement at the concrete null-answering table,
live handle 0, sigma 40. -/
theorem blur_wrapper_amended_witness :
    (Consumer.Lib.functions { functions := tNullBlur }).blur_image heap0 (some 0) 40 =
        some (none, heap0) ∧
    Consumer.Image.blur heap0
        { lib := { functions := tNullBlur }, handle := some 0 } 40 =
      some ({ lib := { functions := tNullBlur }, handle := none }, heap0) :=
  ⟨rfl, blur_wrapper_amended heap0
    { lib := { functions := tNullBlur }, handle := some 0 } 40 none heap0 rfl⟩

/-- C6.  For every live image (an allocated address holding an image) and
every sigma, img_blur allocates a new heap image at the fresh address — a
handle distinct from the input — stores the blurred result there, and
leaves the input address holding the unchanged original image; every other
address is untouched as well. -/
theorem blur_purity (E : Engine) (st : Heap) (a : Nat) (i : Img) (sigma : F32)
    (hlt : a < st.next) (hmem : st.mem a = some i) :
    ∃ st1, Provider.imgBlur E st (some a) sigma = some (some st.next, st1)
      ∧ some st.next ≠ (some a : ImageHandle)
      ∧ st1.mem a = some i
      ∧ st1.mem st.next = some { fmt := .rgba8, rows := E.blurKernel i sigma }
      ∧ st1.next = st.next + 1
      ∧ (∀ b, b ≠ st.next → st1.mem b = st.mem b) := by
  have hne : a ≠ st.next := Nat.ne_of_lt hlt
  refine ⟨{ next := st.next + 1,
            mem := fun b =>
              if b = st.next then some { fmt := .rgba8, rows := E.blurKernel i sigma }
              else st.mem b },
    ?_, ?_, ?_, by simp, rfl, ?_⟩
  · simp [Provider.imgBlur, Provider.asImage, hmem, Provider.ImageHandle.fromImage]
  · simp [Ne.symm hne]
  · simp [hne, hmem]
  · intro b hb
    simp [hb]

/-- C6 witness: blur at the concrete engine, heap, live address 0, sigma 7. -/
theorem blur_purity_witness :
    (0 < heap0.next ∧ heap0.mem 0 = some img0) ∧
    ∃ st1, Provider.imgBlur engine0 heap0 (some 0) 7 = some (some heap0.next, st1)
      ∧ some heap0.next ≠ (some 0 : ImageHandle)
      ∧ st1.mem 0 = some img0
      ∧ st1.mem heap0.next =
          some { fmt := .rgba8, rows := engine0.blurKernel img0 7 }
      ∧ st1.next = heap0.next + 1
      ∧ (∀ b, b ≠ heap0.next → st1.mem b = heap0.mem b) :=
  ⟨⟨by decide, by decide⟩,
   blur_purity engine0 heap0 0 img0 7 (by decide) (by decide)⟩

/-- A horizontal flip is an involution on the image model: reversing every
row twice restores the original rows and the format was never touched. -/
theorem flipHorizontal_flipHorizontal (i : Img) :
    flipHorizontal (flipHorizontal i) = i := by
  cases i with
  | mk fmt rows =>
      simp [flipHorizontal, List.map_map, Function.comp_def]

/-- C7.  img_mirror is an in-place involution: on a live handle it leaves
the image at the same address (the handle stays valid and is not replaced —
the allocation counter does not move), one application stores the
horizontally flipped image there, and a second application restores every
address of the heap to its original content. -/
theorem mirror_involution (st : Heap) (a : Nat) (i : Img)
    (hmem : st.mem a = some i) :
    ∃ st1, Provider.imgMirror st (some a) = some st1
      ∧ st1.next = st.next
      ∧ st1.mem a = some (flipHorizontal i)
      ∧ ∃ st2, Provider.imgMirror st1 (some a) = some st2
          ∧ st2.next = st.next
          ∧ (∀ b, st2.mem b = st.mem b) := by
  refine ⟨{ next := st.next,
            mem := fun b => if b = a then some (flipHorizontal i) else st.mem b },
    by simp [Provider.imgMirror, hmem], rfl, by simp, ?_⟩
  refine ⟨{ next := st.next,
            mem := fun b =>
              if b = a then some (flipHorizontal (flipHorizontal i)) else st.mem b },
    ?_, rfl, ?_⟩
  · simp [Provider.imgMirror]
    funext b
    by_cases hb : b = a
    · simp [hb]
    · simp [hb]
  · intro b
    by_cases hb : b = a
    · simp [hb, flipHorizontal_flipHorizontal, hmem]
    · simp [hb]

/-- C7 witness: the double mirror at the concrete heap and live address 0. -/
theorem mirror_involution_witness :
    heap0.mem 0 = some img0 ∧
    (∃ st1, Provider.imgMirror heap0 (some 0) = some st1
      ∧ st1.next = heap0.next
      ∧ st1.mem 0 = some (flipHorizontal img0)
      ∧ ∃ st2, Provider.imgMirror st1 (some 0) = some st2
          ∧ st2.next = heap0.next
          ∧ (∀ b, st2.mem b = heap0.mem b)) :=
  ⟨by decide, mirror_involution heap0 0 img0 (by decide)⟩

/-- C8.  Both sides of the ABI fix the same 32-bit tag for ImageError: the
provider's repr(C) enum and the consumer's repr(u32) enum both encode
NoError as 0, Io as 1, Decoding as 2, Encoding as 3, Parameter as 4 and
Unsupported as 5; reading the provider's value as the consumer's enum
preserves the tag of every variant, and every tag fits in 32 bits. -/
theorem image_error_wire_codes :
    Provider.ImageError.discriminant .NoError = 0
    ∧ Provider.ImageError.discriminant .Io = 1
    ∧ Provider.ImageError.discriminant .Decoding = 2
    ∧ Provider.ImageError.discriminant .Encoding = 3
    ∧ Provider.ImageError.discriminant .Parameter = 4
    ∧ Provider.ImageError.discriminant .Unsupported = 5
    ∧ Consumer.ImageError.discriminant .NoError = 0
    ∧ Consumer.ImageError.discriminant .Io = 1
    ∧ Consumer.ImageError.discriminant .Decoding = 2
    ∧ Consumer.ImageError.discriminant .Encoding = 3
    ∧ Consumer.ImageError.discriminant .Parameter = 4
    ∧ Consumer.ImageError.discriminant .Unsupported = 5
    ∧ (∀ e : Provider.ImageError,
        (Consumer.reinterpret e).discriminant = e.discriminant)
    ∧ (∀ e : Provider.ImageError, e.discriminant < 2 ^ 32)
    ∧ (∀ e : Consumer.ImageError, e.discriminant < 2 ^ 32) := by
  refine ⟨rfl, rfl, rfl, rfl, rfl, rfl, rfl, rfl, rfl, rfl, rfl, rfl, ?_, ?_, ?_⟩
  · intro e
    cases e <;> rfl
  · intro e
    cases e <;> decide
  · intro e
    cases e <;> decide

/-- C9.  For every live image and every sigma, the image img_blur creates is
stored as DynamicImage::ImageRgba8 — format rgba8 — whatever the input's
format was; and blurring is the only operation that changes a stored image's
format: img_mirror rewrites the image at its address with the format kept,
and img_save leaves the whole heap unchanged on every path on which it
returns. -/
theorem blur_rgba8_format (E : Engine) (st : Heap) (a : Nat) (i : Img)
    (sigma : F32) (hmem : st.mem a = some i) :
    (∃ st1, Provider.imgBlur E st (some a) sigma = some (some st.next, st1)
      ∧ st1.mem st.next =
          some { fmt := ColorFormat.rgba8, rows := E.blurKernel i sigma })
    ∧ (∃ st2, Provider.imgMirror st (some a) = some st2
      ∧ ∃ j, st2.mem a = some j ∧ j.fmt = i.fmt)
    ∧ (∀ p r st3, Provider.imgSave E st p (some a) = some (r, st3) → st3 = st) := by
  refine ⟨?_, ?_, ?_⟩
  · refine ⟨{ next := st.next + 1,
              mem := fun b =>
                if b = st.next then some { fmt := .rgba8, rows := E.blurKernel i sigma }
                else st.mem b }, ?_, by simp⟩
    simp [Provider.imgBlur, Provider.asImage, hmem, Provider.ImageHandle.fromImage]
  · refine ⟨{ next := st.next,
              mem := fun b => if b = a then some (flipHorizontal i) else st.mem b },
      by simp [Provider.imgMirror, hmem], flipHorizontal i, by simp, ?_⟩
    simp [flipHorizontal]
  · intro p r st3 hs
    cases p with
    | none =>
        simp [Provider.imgSave] at hs
        exact hs.2.symm
    | some bs =>
        by_cases hv : E.validUtf8 bs
        · cases henc : E.encode bs i with
          | ok u =>
              simp [Provider.imgSave, Provider.tryIntoPath, hv, Provider.asImage,
                hmem, henc] at hs
              exact hs.2.symm
          | error e =>
              simp [Provider.imgSave, Provider.tryIntoPath, hv, Provider.asImage,
                hmem, henc] at hs
              exact hs.2.symm
        · simp [Provider.imgSave, Provider.tryIntoPath, hv] at hs
          exact hs.2.symm

/-- C9 witness: blur, mirror and save on the concrete rgb8 image at the
concrete engine and heap, sigma 5. -/
theorem blur_rgba8_format_witness :
    heap0.mem 0 = some img0 ∧
    ((∃ st1, Provider.imgBlur engine0 heap0 (some 0) 5 = some (some heap0.next, st1)
      ∧ st1.mem heap0.next =
          some { fmt := ColorFormat.rgba8, rows := engine0.blurKernel img0 5 })
    ∧ (∃ st2, Provider.imgMirror heap0 (some 0) = some st2
      ∧ ∃ j, st2.mem 0 = some j ∧ j.fmt = img0.fmt)
    ∧ (∀ p r st3, Provider.imgSave engine0 heap0 p (some 0) = some (r, st3) →
        st3 = heap0)) :=
  ⟨by decide, blur_rgba8_format engine0 heap0 0 img0 5 (by decide)⟩

/-- C10.  For every path whose UTF-8 bytes hold an interior NUL, the
consumer wrapper's Image::open and Image::save fail in path_to_cstring
(CString::new rejects the bytes) and return that marshalling error with an
empty trace: no provider ABI function is invoked. -/
theorem interior_nul_no_abi (l : Consumer.Lib) (st : Heap)
    (img : Consumer.Image) (bs : List Nat) (hnul : bs.contains 0 = true) :
    Consumer.Image.openImage l st (some bs) = (.error .interiorNul, [])
    ∧ Consumer.Image.save st img (some bs) = some (.error .interiorNul, []) := by
  have h0 : 0 ∈ bs := by simpa using hnul
  constructor
  · simp [Consumer.Image.openImage, Consumer.pathToCstring, h0]
  · simp [Consumer.Image.save, Consumer.pathToCstring, h0]

/-- C10 witness: the concrete path bytes 104, 0, 105 — an interior NUL —
at a concrete library and image. -/
theorem interior_nul_no_abi_witness :
    (([104, 0, 105] : List Nat).contains 0 = true) ∧
    (Consumer.Image.openImage { functions := tNullBlur } heap0 (some [104, 0, 105]) =
        (.error .interiorNul, [])
    ∧ Consumer.Image.save heap0
        { lib := { functions := tNullBlur }, handle := some 0 } (some [104, 0, 105]) =
        some (.error .interiorNul, [])) :=
  ⟨by decide,
   interior_nul_no_abi { functions := tNullBlur } heap0
     { lib := { functions := tNullBlur }, handle := some 0 } [104, 0, 105] (by decide)⟩
